import Mathlib

/-!
Shallow embedding of the nsw-campsites availability-enrichment pipeline
(src/main.py) and verification of its specified properties.

Python strings are modelled as Lean `String` (lists of characters), Python
`None` as `Option.none`, JSON values as an inductive `JVal`, Python dicts as
association lists with overwrite-on-set semantics, and the per-identifier
HTTP fetch as an oracle function threaded through the orchestrator.
-/

/-- Characters stripped by the Python `str.strip()` method with no argument:
exactly the characters for which `str.isspace()` holds. -/
def isPySpace (c : Char) : Bool :=
  c = ' ' || c = '\t' || c = '\n' || c = '\r' || c = '\x0b' || c = '\x0c' ||
  c = '\x1c' || c = '\x1d' || c = '\x1e' || c = '\x1f' || c = '\x85' ||
  c = '\xa0' || c = ' ' || c = ' ' || c = ' ' || c = ' ' ||
  c = ' ' || c = ' ' || c = ' ' || c = ' ' || c = ' ' ||
  c = ' ' || c = ' ' || c = ' ' || c = ' ' || c = ' ' ||
  c = ' ' || c = ' ' || c = '　'

/-- Python `s.strip()` on the character list of a string: drop whitespace
from the front, then from the back. -/
def pyStrip (l : List Char) : List Char :=
  ((l.dropWhile isPySpace).reverse.dropWhile isPySpace).reverse

/-- The brace-removal step of `extract_context_id` (src/main.py lines 40-41):
if the cleaned string starts with a left brace and ends with a right brace,
take the slice `cleaned[1:-1]`. -/
def stripBraces (l : List Char) : List Char :=
  if l.head? = some '{' ∧ l.getLast? = some '}' then (l.drop 1).dropLast else l

/-- Core of `extract_context_id` on character lists (src/main.py lines 35-42):
falsy input gives `none`, otherwise strip whitespace, remove one surrounding
brace pair if present, and map an empty result to `none` (the final
`cleaned or None`). There is no second strip after brace removal. -/
def extractCore (l : List Char) : Option (List Char) :=
  if l = [] then none
  else
    let cleaned := stripBraces (pyStrip l)
    if cleaned = [] then none else some cleaned

/-- The function `extract_context_id` of src/main.py, with the Python `None`
argument modelled as `Option.none`. -/
def extract_context_id (raw : Option String) : Option String :=
  match raw with
  | none => none
  | some s => (extractCore s.data).map String.mk

example : extract_context_id (some ⟨['{', 'A', 'B', '}']⟩) = some "AB" := by decide
example : extract_context_id (some ⟨[' ', '{', 'A', '}', ' ']⟩) = some "A" := by decide
example : extract_context_id (some ⟨['{', ' ', 'A', ' ', '}']⟩) = some ⟨[' ', 'A', ' ']⟩ := by
  decide
example : extract_context_id (some "") = none := by decide
example : extract_context_id none = none := by decide
example : extract_context_id (some ⟨['{', '}']⟩) = none := by decide

/-! ### JSON values and Python dict operations -/

/-- JSON-like values as parsed by `resp.json()` and stored in campground
records. Python dicts are association lists of string keys. -/
inductive JVal where
  | null
  | boolean (b : Bool)
  | num (n : Int)
  | str (s : String)
  | arr (xs : List JVal)
  | obj (kvs : List (String × JVal))

/-- Python `d.get(k)`: the value under the first matching key, or `None`. -/
def dictGet (d : List (String × JVal)) (k : String) : Option JVal :=
  match d with
  | [] => none
  | (k1, v) :: rest => if k1 = k then some v else dictGet rest k

/-- Python `d[k] = v`: overwrite the first matching key in place, or append. -/
def dictSet (d : List (String × JVal)) (k : String) (v : JVal) :
    List (String × JVal) :=
  match d with
  | [] => [(k, v)]
  | (k1, v1) :: rest =>
    if k1 = k then (k, v) :: rest else (k1, v1) :: dictSet rest k v

/-- Python truthiness of a JSON value: `None`, `False`, `0`, the empty
string, the empty list and the empty dict are falsy. -/
def JVal.truthy : JVal → Bool
  | .null => false
  | .boolean b => b
  | .num n => n != 0
  | .str s => s != ""
  | .arr xs => !xs.isEmpty
  | .obj kvs => !kvs.isEmpty

/-- Truthiness of a `d.get(k)` result: an absent key behaves like `None`. -/
def optTruthy : Option JVal → Bool
  | none => false
  | some v => v.truthy

/-- Python `a or b`: `a` when truthy, otherwise `b`. -/
def pyOr (a b : Option JVal) : Option JVal :=
  if optTruthy a then a else b

/-- Python `isinstance(v, str)`. -/
def isStrJVal : JVal → Bool
  | .str _ => true
  | _ => false

/-- Python `isinstance(v, dict)`. -/
def isObjJVal : JVal → Bool
  | .obj _ => true
  | _ => false

/-- The check `isinstance(dates, list) and all(isinstance(d, str) for d in
dates)` together with the extraction of the string payloads: `some` exactly
when every element is a string. -/
def asStrings : List JVal → Option (List String)
  | [] => some []
  | .str s :: rest => (asStrings rest).map (fun l => s :: l)
  | _ :: _ => none

/-- Response-body parsing of `fetch_availability_dates` (src/main.py lines
72-80): for a dict body take `payload.get("dates") or payload.get("Dates")`
and return it when it is a list of strings; a bare list body is returned
when it is a list of strings; anything else gives `None`. A dict body that
fails the dates check does not fall through to the bare-list branch because
a dict is not a list. -/
def parsePayload (payload : JVal) : Option (List String) :=
  match payload with
  | .obj kvs =>
    match pyOr (dictGet kvs "dates") (dictGet kvs "Dates") with
    | some (.arr xs) => asStrings xs
    | _ => none
  | .arr xs => asStrings xs
  | _ => none

/-- The function `fetch_availability_dates` of src/main.py (lines 57-80).
The request phase (the `try` block: `session.get`, `raise_for_status`,
`resp.json()`) is modelled by its outcome, an `Except`: any exception in it
is caught and mapped to `None`; a successful outcome carries the parsed
JSON body, which is then classified by `parsePayload`. -/
def fetch_availability_dates (resp : Except Unit JVal) : Option (List String) :=
  match resp with
  | .error _ => none
  | .ok payload => parsePayload payload

/-- A body of the shape the fetcher accepts: a dict holding a string list
under the key `dates` or the key `Dates`, or a bare string list. -/
def optIsStringArr : Option JVal → Bool
  | some (.arr xs) => xs.all isStrJVal
  | _ => false

/-- Whether a parsed body is a mapping with a string list under
`dates`/`Dates`, or itself a sequence of strings. -/
def hasAvailabilityShape (p : JVal) : Bool :=
  match p with
  | .obj kvs =>
    optIsStringArr (dictGet kvs "dates") || optIsStringArr (dictGet kvs "Dates")
  | .arr xs => xs.all isStrJVal
  | _ => false

example :
    fetch_availability_dates (.ok (.obj [("dates", .arr [.str "01/01/2025"]),
      ("Dates", .arr [.str "02/01/2025"])])) = some ["01/01/2025"] := by rfl
example :
    fetch_availability_dates (.ok (.obj [("dates", .arr []),
      ("Dates", .arr [.str "02/01/2025"])])) = some ["02/01/2025"] := by rfl
example : fetch_availability_dates (.ok (.obj [("other", .num 1)])) = none := by rfl
example : fetch_availability_dates (.ok (.arr [.str "01/01/2025"])) =
    some ["01/01/2025"] := by rfl
example : fetch_availability_dates (.error ()) = none := by rfl

/-! ### Dates and the availability classifier -/

/-- A calendar date as used by `datetime.today()`; only the fields read by
the `%d/%m/%Y` format are modelled. -/
structure Date where
  day : Nat
  month : Nat
  year : Nat

/-- Zero-padding to two digits, as `%d` and `%m` in `strftime`. -/
def pad2 (n : Nat) : String :=
  if n < 10 then "0" ++ toString n else toString n

/-- Zero-padding to four digits, as `%Y` in `strftime`. -/
def pad4 (n : Nat) : String :=
  if n < 10 then "000" ++ toString n
  else if n < 100 then "00" ++ toString n
  else if n < 1000 then "0" ++ toString n
  else toString n

/-- The expression `today.strftime("%d/%m/%Y")` of src/main.py line 94. -/
def formatDDMMYYYY (d : Date) : String :=
  pad2 d.day ++ "/" ++ pad2 d.month ++ "/" ++ pad4 d.year

/-- The function `determine_availability` of src/main.py (lines 90-95):
a falsy `dates` (None or the empty list) gives unknown, otherwise exact
string membership of the formatted current date decides. -/
def determine_availability (today : Date) (dates : Option (List String)) :
    String :=
  match dates with
  | none => "unknown"
  | some ds =>
    if ds.isEmpty then "unknown"
    else if ds.contains (formatDDMMYYYY today) then "available"
    else "unavailable"

example : formatDDMMYYYY ⟨1, 5, 2024⟩ = "01/05/2024" := by rfl
example : determine_availability ⟨1, 5, 2024⟩ (some ["01/05/2024"]) = "available" := by rfl
example : determine_availability ⟨1, 5, 2024⟩ (some ["02/05/2024"]) = "unavailable" := by rfl
example : determine_availability ⟨1, 5, 2024⟩ none = "unknown" := by rfl
example : determine_availability ⟨1, 5, 2024⟩ (some []) = "unknown" := by rfl

/-! ### The enrichment loop of `main` (src/main.py lines 159-171) -/

/-- A campground record: a Python dict of string keys. -/
def CampRec := List (String × JVal)

/-- The context id computed for a record (src/main.py lines 160-161):
`extract_context_id(raw_id) if isinstance(raw_id, str) else None` with
`raw_id = cg.get("id")`. -/
def recordContextId (cg : CampRec) : Option String :=
  match dictGet cg "id" with
  | some (.str s) => extract_context_id (some s)
  | _ => none

/-- The fetch guard of src/main.py lines 162-164: `if context_id:` uses
Python truthiness, so only a non-empty context id triggers a fetch. The
fetch itself is an oracle from context ids to results. -/
def datesFor (fetch : String → Option (List String)) (cid : Option String) :
    Option (List String) :=
  match cid with
  | some c => if c = "" then none else fetch c
  | none => none

/-- Encoding of the `_context_id` field value. -/
def ctxJVal : Option String → JVal
  | none => .null
  | some s => .str s

/-- Encoding of the `_dates` field value. -/
def datesJVal : Option (List String) → JVal
  | none => .null
  | some l => .arr (l.map .str)

/-- One iteration of the enrichment loop (src/main.py lines 159-171):
extract the context id, fetch dates when it is truthy, classify, then copy
the record and set the three derived fields. -/
def enrichRecord (fetch : String → Option (List String)) (today : Date)
    (cg : CampRec) : CampRec :=
  let context_id := recordContextId cg
  let dates := datesFor fetch context_id
  let status := determine_availability today dates
  dictSet (dictSet (dictSet cg "_context_id" (ctxJVal context_id))
    "_dates" (datesJVal dates)) "_availability" (.str status)

/-- The whole enrichment loop: one enriched record per input record, in
input order. -/
def enrich (fetch : String → Option (List String)) (today : Date)
    (cgs : List CampRec) : List CampRec :=
  cgs.map (enrichRecord fetch today)

example :
    dictGet (enrichRecord (fun _ => some ["01/05/2024"]) ⟨1, 5, 2024⟩
      [("title", .str "B")]) "_availability" = some (.str "unknown") := by rfl
example :
    dictGet (enrichRecord (fun _ => some ["01/05/2024"]) ⟨1, 5, 2024⟩
      [("id", .str "X1"), ("title", .str "A")]) "_availability" =
      some (.str "available") := by rfl
example :
    dictGet (enrichRecord (fun _ => some ["01/05/2024"]) ⟨1, 5, 2024⟩
      [("id", .num 7)]) "_context_id" = some .null := by rfl

/-! ### The `main` entry point (src/main.py lines 149-176) -/

/-- Python `isinstance(cg, dict)` with extraction: records that are not
dicts make the loop body raise at `cg.get`. -/
def asObj : JVal → Option CampRec
  | .obj kvs => some kvs
  | _ => none

/-- No two adjacent underscores occur in the list. -/
def noDoubleUnderscore : List Char → Bool
  | '_' :: '_' :: _ => false
  | _ :: rest => noDoubleUnderscore rest
  | [] => true

/-- The digitpart of the grammar documented for the Python float builtin:
digit, optionally followed by further digits with single underscores
between digits. Equivalently: non-empty, only ASCII digits and
underscores, no underscore at either end, no two adjacent underscores. -/
def isDigitPart (l : List Char) : Bool :=
  !l.isEmpty && l.all (fun c => c.isDigit || c == '_') &&
    l.head? != some '_' && l.getLast? != some '_' && noDoubleUnderscore l

/-- An optional sign followed by a digitpart, as in the exponent of the
float grammar. -/
def isSignedDigitPart (l : List Char) : Bool :=
  match l with
  | c :: rest => if c == '+' || c == '-' then isDigitPart rest else isDigitPart l
  | [] => false

/-- The number of the float grammar: an optional digitpart, a dot and a
digitpart; or a digitpart with an optional trailing dot; so at least one
digit must be present and at most one dot. -/
def isNumberPart (l : List Char) : Bool :=
  match l.splitOn '.' with
  | [a] => isDigitPart a
  | [a, b] =>
    (a.isEmpty || isDigitPart a) && (b.isEmpty || isDigitPart b) &&
      !(a.isEmpty && b.isEmpty)
  | _ => false

/-- The floatnumber of the float grammar: a number with an optional
exponent, the exponent marker written in either case (the input here is
already lowercased) and followed by an optional sign and a digitpart. -/
def isFloatNumber (l : List Char) : Bool :=
  match l.splitOn 'e' with
  | [m] => isNumberPart m
  | [m, ex] => isNumberPart m && isSignedDigitPart ex
  | _ => false

/-- Whether the Python float builtin accepts a string, per the grammar of
its documentation: surrounding whitespace is stripped, then an optional
sign precedes one of the case-insensitive words inf, infinity and nan, or
a floatnumber. -/
def pyFloatStr (l : List Char) : Bool :=
  let t := pyStrip l
  let t := match t with
    | c :: rest => if c == '+' || c == '-' then rest else c :: rest
    | [] => []
  let low := t.map Char.toLower
  low == "inf".data || low == "infinity".data || low == "nan".data ||
    isFloatNumber low

example : pyFloatStr "1.5".data = true := by rfl
example : pyFloatStr "-33.1e2".data = true := by rfl
example : pyFloatStr ".5".data = true := by rfl
example : pyFloatStr "5.".data = true := by rfl
example : pyFloatStr "1_0".data = true := by rfl
example : pyFloatStr "  +Infinity ".data = true := by rfl
example : pyFloatStr "NaN".data = true := by rfl
example : pyFloatStr "".data = false := by rfl
example : pyFloatStr "abc".data = false := by rfl
example : pyFloatStr ".".data = false := by rfl
example : pyFloatStr "_1".data = false := by rfl
example : pyFloatStr "1__0".data = false := by rfl
example : pyFloatStr "1e".data = false := by rfl
example : pyFloatStr "+ 5".data = false := by rfl
example : pyFloatStr "--5".data = false := by rfl

/-- Whether `float(x)` succeeds on a value looked up from the coords dict
(src/main.py lines 110-111): it does on booleans, integers and strings of
the float grammar; it raises on an absent key (Python None), on null, and
on lists and dicts, which the surrounding try block turns into a skip. -/
def pyFloatOk : Option JVal → Bool
  | some (.boolean _) => true
  | some (.num _) => true
  | some (.str s) => pyFloatStr s.data
  | _ => false

/-- Whether the popup construction of `create_map` (src/main.py lines
125-137) survives a record that reached it: the join of the popup lines
raises unless the title value, when the key is present, is a string; the
remaining popup lines are formatted strings, and on an enriched record the
availability value is always a string and the context id null or a string,
so no other operation there can raise. -/
def titleOk (cg : CampRec) : Bool :=
  match dictGet cg "title" with
  | some v => isStrJVal v
  | none => true

/-- One iteration of the `create_map` loop (src/main.py lines 105-141) on
an enriched record, reduced to its raise-or-not behavior: the expression
joining the coords lookup with `or` and the empty dict yields the coords
value when truthy, so a truthy non-dict coords value raises at the lat
lookup; with a dict coords value (or a falsy one, replaced by the empty
dict), a record whose lat and lon values both convert to float reaches the
popup construction, which raises on a non-string title, while any float
failure is caught and skips the record. The folium calls are the external
map collaborator and are assumed not to raise. -/
def renderRecordOk (cg : CampRec) : Bool :=
  match dictGet cg "coords" with
  | some v =>
    if v.truthy then
      match v with
      | .obj kvs =>
        if pyFloatOk (dictGet kvs "lat") && pyFloatOk (dictGet kvs "lon") then
          titleOk cg
        else true
      | _ => false
    else true
  | none => true

/-- The environment `main` runs in: whether the input file exists, the
outcome of reading and JSON-parsing it, whether the initial cookie request
succeeds, the per-context-id availability response, and the current date. -/
structure Env where
  fileExists : Bool
  fileContents : Except Unit JVal
  cookiesOk : Bool
  fetchResp : String → Except Unit JVal
  today : Date

/-- Observable outcome of `main`: a return code together with whether a
message was printed to the error stream, or a crash by an uncaught
exception (JSON parse failure, a non-list top level, cookie-request
failure, or a non-dict record). -/
inductive MainResult where
  | exit (code : Nat) (stderrMessage : Bool)
  | crash
deriving DecidableEq

/-- The function `main` of src/main.py (lines 149-176): a missing input
file prints to stderr and returns 1; then `load_campgrounds` raises on a
parse failure or a non-list top level; `fetch_cookies` may raise; the loop
raises on a non-dict record; then `create_map` runs over the enriched list
and raises on any enriched record that fails the render step (a truthy
non-dict coords value, or float-convertible coordinates next to a
non-string title); otherwise the map is written and 0 is returned with
nothing on stderr. -/
def mainResult (env : Env) : MainResult :=
  if env.fileExists = false then .exit 1 true
  else
    match env.fileContents with
    | .error _ => .crash
    | .ok payload =>
      match payload with
      | .arr items =>
        if env.cookiesOk then
          match items.mapM asObj with
          | some recs =>
            let enriched := enrich
              (fun cid => fetch_availability_dates (env.fetchResp cid))
              env.today recs
            if enriched.all renderRecordOk then .exit 0 false else .crash
          | none => .crash
        else .crash
      | _ => .crash

example :
    mainResult ⟨false, .ok (.arr []), true, fun _ => .error (), ⟨1, 5, 2024⟩⟩ =
      .exit 1 true := by rfl
example :
    mainResult ⟨true, .ok (.arr [.obj [("title", .str "A")]]), true,
      fun _ => .error (), ⟨1, 5, 2024⟩⟩ = .exit 0 false := by rfl
example :
    mainResult ⟨true, .ok (.str "x"), true, fun _ => .error (), ⟨1, 5, 2024⟩⟩ =
      .crash := by rfl
example :
    mainResult ⟨true, .ok (.arr [.obj [("coords", .num 5)]]), true,
      fun _ => .error (), ⟨1, 5, 2024⟩⟩ = .crash := by rfl
example :
    mainResult ⟨true, .ok (.arr [.obj [("coords",
        .obj [("lat", .str "1.5"), ("lon", .str "2.5")]), ("title", .num 3)]]),
      true, fun _ => .error (), ⟨1, 5, 2024⟩⟩ = .crash := by rfl
example :
    mainResult ⟨true, .ok (.arr [.obj [("coords",
        .obj [("lat", .str "1.5"), ("lon", .str "2.5")]),
        ("title", .str "A")]]),
      true, fun _ => .error (), ⟨1, 5, 2024⟩⟩ = .exit 0 false := by rfl
example :
    mainResult ⟨true, .ok (.arr [.obj [("coords",
        .obj [("lat", .str "x")]), ("title", .num 3)]]),
      true, fun _ => .error (), ⟨1, 5, 2024⟩⟩ = .exit 0 false := by rfl

/-! ### Helper lemmas -/

theorem dictGet_dictSet_self (d : List (String × JVal)) (k : String) (v : JVal) :
    dictGet (dictSet d k v) k = some v := by
  induction d with
  | nil => simp [dictSet, dictGet]
  | cons p rest ih =>
    obtain ⟨k1, v1⟩ := p
    by_cases h : k1 = k
    · simp [dictSet, dictGet, h]
    · simp [dictSet, dictGet, h, ih]

theorem dictGet_dictSet_ne (d : List (String × JVal)) (k k2 : String) (v : JVal)
    (h : k2 ≠ k) : dictGet (dictSet d k v) k2 = dictGet d k2 := by
  induction d with
  | nil => simp [dictSet, dictGet, Ne.symm h]
  | cons p rest ih =>
    obtain ⟨k1, v1⟩ := p
    by_cases h1 : k1 = k
    · subst h1
      simp [dictSet, dictGet, Ne.symm h]
    · by_cases h2 : k1 = k2
      · subst h2
        simp [dictSet, dictGet, h1]
      · simp [dictSet, dictGet, h1, h2, ih]

theorem asStrings_eq_none (xs : List JVal) (h : xs.all isStrJVal = false) :
    asStrings xs = none := by
  induction xs with
  | nil => simp at h
  | cons x rest ih =>
    cases x with
    | str s =>
      simp only [List.all_cons, isStrJVal, Bool.true_and] at h
      simp [asStrings, ih h]
    | null => rfl
    | boolean b => rfl
    | num n => rfl
    | arr ys => rfl
    | obj kvs => rfl

theorem asStrings_map_str (l : List String) :
    asStrings (l.map JVal.str) = some l := by
  induction l with
  | nil => rfl
  | cons s rest ih => simp [asStrings, ih]

theorem pyOr_cases (a b : Option JVal) : pyOr a b = a ∨ pyOr a b = b := by
  unfold pyOr
  by_cases h : optTruthy a = true
  · exact Or.inl (if_pos h)
  · exact Or.inr (if_neg h)

theorem pyStrip_sandwich (a b : Char) (l : List Char)
    (ha : isPySpace a = false) (hb : isPySpace b = false) :
    pyStrip (a :: l ++ [b]) = a :: l ++ [b] := by
  simp [pyStrip, List.dropWhile_cons, ha, hb, List.reverse_append]

/-! ### Claim C1 -/

/-- Modelled from the amended claim C1: trim, remove one surrounding brace
pair when the trimmed string starts with a left brace and ends with a right
brace, and, with no second trim, map an empty result to `none` and any
other result to itself (so whitespace that the braces enclosed survives). -/
def extractContextIdNoRetrim (raw : Option String) : Option String :=
  match raw with
  | none => none
  | some s =>
    if s = "" then none
    else
      let t := pyStrip s.data
      let u :=
        if t.head? = some '{' ∧ t.getLast? = some '}' then
          (t.drop 1).take (t.length - 2)
        else t
      if u.isEmpty then none else some (String.mk u)

/-- C1: the claim states that after brace removal the result is re-trimmed,
so that the returned string never has leading or trailing whitespace. The
code has no such re-trim: on the input made of a left brace, a space, the
letter A, a space and a right brace, it returns the three-character string
space-A-space, whose first and last characters are whitespace. -/
theorem C1_counterexample :
    extract_context_id (some ⟨['{', ' ', 'A', ' ', '}']⟩) =
      some ⟨[' ', 'A', ' ']⟩ ∧ isPySpace ' ' = true := by
  decide

/-- C1 amended: for every input, `extract_context_id` trims the input,
removes exactly one surrounding brace pair if the trimmed string starts
with a left brace and ends with a right brace, and without re-trimming
returns `none` when the result is empty and the result itself otherwise. -/
theorem C1_spec_equiv (raw : Option String) :
    extract_context_id raw = extractContextIdNoRetrim raw := by
  cases raw with
  | none => rfl
  | some s =>
    obtain ⟨l⟩ := s
    show (extractCore l).map String.mk = _
    by_cases h0 : l = []
    · subst h0
      rfl
    · have hne : (⟨l⟩ : String) ≠ "" := by
        simpa [String.ext_iff] using h0
      unfold extractCore
      simp only [extractContextIdNoRetrim]
      rw [if_neg h0, if_neg hne]
      have hu : stripBraces (pyStrip l) =
          (if (pyStrip l).head? = some '{' ∧ (pyStrip l).getLast? = some '}' then
            ((pyStrip l).drop 1).take ((pyStrip l).length - 2)
          else pyStrip l) := by
        unfold stripBraces
        by_cases hc : (pyStrip l).head? = some '{' ∧ (pyStrip l).getLast? = some '}'
        · rw [if_pos hc, if_pos hc, List.dropLast_eq_take, List.length_drop]
          have : (pyStrip l).length - 1 - 1 = (pyStrip l).length - 2 := by omega
          rw [this]
        · rw [if_neg hc, if_neg hc]
      rw [← hu]
      by_cases hc : stripBraces (pyStrip l) = []
      · rw [if_pos hc]
        have : (stripBraces (pyStrip l)).isEmpty = true := by
          rw [hc]
          rfl
        rw [if_pos this]
        rfl
      · rw [if_neg hc]
        have : ¬ (stripBraces (pyStrip l)).isEmpty = true := by
          simpa [List.isEmpty_iff] using hc
        rw [if_neg this]
        rfl
/-! ### Claim C6 -/

/-- C6: the claim quantifies over every string with no leading or trailing
brace, but wrapping in braces protects interior whitespace from the initial
trim, so a string made of a space, the letter A and a space is a
counterexample: it has no leading or trailing brace, yet wrapping it in
braces extracts to the three-character string itself while the unwrapped
input trims down to the single letter A. -/
theorem C6_counterexample :
    ((⟨[' ', 'A', ' ']⟩ : String).data.head? ≠ some '{' ∧
      (⟨[' ', 'A', ' ']⟩ : String).data.getLast? ≠ some '}') ∧
    extract_context_id (some ⟨'{' :: (⟨[' ', 'A', ' ']⟩ : String).data ++ ['}']⟩) ≠
      extract_context_id (some ⟨[' ', 'A', ' ']⟩) := by
  decide

/-- C6 amended: wrapping in one brace pair is invisible to
`extract_context_id` for strings with no leading or trailing brace and no
leading or trailing whitespace, and the empty string and `None` both map to
`None`. -/
theorem C6_brace_invariance (s : String)
    (hstrip : pyStrip s.data = s.data)
    (hhead : s.data.head? ≠ some '{')
    (hlast : s.data.getLast? ≠ some '}') :
    extract_context_id (some ⟨'{' :: s.data ++ ['}']⟩) =
      extract_context_id (some s) ∧
    extract_context_id (some "") = none ∧
    extract_context_id none = none := by
  refine ⟨?_, rfl, rfl⟩
  obtain ⟨l⟩ := s
  replace hstrip : pyStrip l = l := hstrip
  replace hhead : l.head? ≠ some '{' := hhead
  by_cases h0 : l = []
  · subst h0
    decide
  · have hsw : pyStrip ('{' :: l ++ ['}']) = '{' :: l ++ ['}'] :=
      pyStrip_sandwich '{' '}' l (by decide) (by decide)
    have hlastw : ('{' :: l ++ ['}']).getLast? = some '}' := by
      show (('{' :: l) ++ ['}']).getLast? = some '}'
      exact List.getLast?_concat _
    have hcond : ('{' :: l ++ ['}']).head? = some '{' ∧
        ('{' :: l ++ ['}']).getLast? = some '}' := ⟨rfl, hlastw⟩
    have hsbw : stripBraces ('{' :: l ++ ['}']) = l := by
      unfold stripBraces
      rw [if_pos hcond]
      show (l ++ ['}']).dropLast = l
      exact List.dropLast_concat
    have hsb : stripBraces (pyStrip l) = l := by
      rw [hstrip]
      unfold stripBraces
      rw [if_neg (fun hc2 => hhead hc2.1)]
    have hne : ('{' :: l ++ ['}']) ≠ [] := by simp
    show (extractCore ('{' :: l ++ ['}'])).map String.mk =
      (extractCore l).map String.mk
    simp only [extractCore, hsw, hsbw, hsb]
    rw [if_neg hne, if_neg h0]
    rw [if_neg h0]

/-- Witness for C6: the concrete two-character string A1 satisfies the
hypotheses, and its brace-wrapped form extracts to the same context id. -/
theorem C6_witness :
    extract_context_id (some ⟨'{' :: ("A1" : String).data ++ ['}']⟩) =
      extract_context_id (some "A1") ∧
    extract_context_id (some "") = none ∧
    extract_context_id none = none :=
  C6_brace_invariance "A1" (by decide) (by decide) (by decide)

/-! ### Claim C8 -/

/-- C8: for every input, `extract_context_id` returns either `None` or a
non-empty string, because the final `cleaned or None` of the code maps an
empty cleaned string to `None`. -/
theorem C8_nonempty_invariant (raw : Option String) :
    extract_context_id raw = none ∨
    ∃ s, extract_context_id raw = some s ∧ s ≠ "" := by
  cases raw with
  | none => exact Or.inl rfl
  | some s =>
    obtain ⟨l⟩ := s
    by_cases h0 : l = []
    · subst h0
      exact Or.inl rfl
    · by_cases hc : stripBraces (pyStrip l) = []
      · left
        show (extractCore l).map String.mk = none
        simp [extractCore, h0, hc]
      · right
        refine ⟨⟨stripBraces (pyStrip l)⟩, ?_, ?_⟩
        · show (extractCore l).map String.mk = some ⟨stripBraces (pyStrip l)⟩
          simp [extractCore, h0, hc]
        · simpa [String.ext_iff] using hc

/-! ### Claim C2 -/

/-- C2: the claim states that the fetcher returns the first of the values
under the keys dates and Dates that is a sequence of strings. The code
instead evaluates the Python expression joining the two lookups with `or`,
which skips a falsy first value: on the body whose dates key holds the
empty list (a string list) and whose Dates key holds a one-element string
list, the claim demands the empty list but the code returns the Dates
value. -/
theorem C2_counterexample :
    optIsStringArr (some (.arr [])) = true ∧
    fetch_availability_dates (.ok (.obj [("dates", .arr []),
      ("Dates", .arr [.str "02/01/2025"])])) = some ["02/01/2025"] ∧
    some ["02/01/2025"] ≠ some ([] : List String) := by
  refine ⟨rfl, rfl, by decide⟩

/-- C2 amended: the fetcher takes the value under dates when that value is
present and truthy and otherwise the value under Dates, then returns the
chosen value exactly when it is a list of strings; in particular when both
keys hold string lists and the one under dates is non-empty, the dates
value wins, and when the dates value is the empty list the Dates value is
returned instead. -/
theorem C2_first_key_wins (kvs : List (String × JVal)) (l1 l2 : List String)
    (h1 : dictGet kvs "dates" = some (.arr (l1.map JVal.str)))
    (h2 : dictGet kvs "Dates" = some (.arr (l2.map JVal.str))) :
    (l1 ≠ [] →
      fetch_availability_dates (.ok (.obj kvs)) = some l1) ∧
    (l1 = [] →
      fetch_availability_dates (.ok (.obj kvs)) = some l2) := by
  constructor
  · intro hne
    show parsePayload (.obj kvs) = some l1
    simp [parsePayload, pyOr, optTruthy, JVal.truthy, h1, h2, hne,
      asStrings_map_str]
  · intro hnil
    subst hnil
    show parsePayload (.obj kvs) = some l2
    simp [parsePayload, pyOr, optTruthy, JVal.truthy, h1, h2,
      asStrings_map_str]

/-- Witness for C2: the spec example body, with both keys holding
one-element string lists, yields the dates value. -/
theorem C2_witness :
    fetch_availability_dates (.ok (.obj [("dates", .arr [.str "01/01/2025"]),
      ("Dates", .arr [.str "02/01/2025"])])) = some ["01/01/2025"] :=
  (C2_first_key_wins [("dates", .arr [.str "01/01/2025"]),
      ("Dates", .arr [.str "02/01/2025"])] ["01/01/2025"] ["02/01/2025"]
      rfl rfl).1 (by decide)

/-! ### Claim C3 -/

/-- C3: the fetcher maps every request-phase exception to `None`, and every
parsed body that is neither a mapping carrying a string list under the keys
dates or Dates nor itself a list of strings also gives `None`; the
embedding is a total function, mirroring that the Python function catches
every exception of the request phase and the parsing phase only inspects
shapes. -/
theorem C3_error_to_none (p : JVal) (h : hasAvailabilityShape p = false) :
    fetch_availability_dates (.error ()) = none ∧
    fetch_availability_dates (.ok p) = none := by
  refine ⟨rfl, ?_⟩
  show parsePayload p = none
  cases p with
  | null => rfl
  | boolean b => rfl
  | num n => rfl
  | str s => rfl
  | arr xs =>
    simp only [hasAvailabilityShape] at h
    exact asStrings_eq_none xs h
  | obj kvs =>
    simp only [hasAvailabilityShape, Bool.or_eq_false_iff] at h
    obtain ⟨hd1, hd2⟩ := h
    simp only [parsePayload]
    rcases pyOr_cases (dictGet kvs "dates") (dictGet kvs "Dates") with hp | hp <;>
      rw [hp]
    · cases hv : dictGet kvs "dates" with
      | none => rfl
      | some v =>
        cases v with
        | arr xs =>
          rw [hv] at hd1
          simp only [optIsStringArr] at hd1
          exact asStrings_eq_none xs hd1
        | null => rfl
        | boolean b => rfl
        | num n => rfl
        | str s => rfl
        | obj kvs2 => rfl
    · cases hv : dictGet kvs "Dates" with
      | none => rfl
      | some v =>
        cases v with
        | arr xs =>
          rw [hv] at hd2
          simp only [optIsStringArr] at hd2
          exact asStrings_eq_none xs hd2
        | null => rfl
        | boolean b => rfl
        | num n => rfl
        | str s => rfl
        | obj kvs2 => rfl

/-- Witness for C3: the spec example body holding the number one under the
key other has none of the accepted shapes and the fetcher returns `None` on
it, as it does on a request-phase exception. -/
theorem C3_witness :
    fetch_availability_dates (.error ()) = none ∧
    fetch_availability_dates (.ok (.obj [("other", .num 1)])) = none :=
  C3_error_to_none (.obj [("other", .num 1)]) rfl

/-! ### Claim C4 -/

/-- C4: `determine_availability` returns unknown when dates is `None` or
empty, and otherwise returns available exactly when the current date
formatted as day, month and four-digit year separated by slashes is a
member of the list, and unavailable otherwise. -/
theorem C4_classifier (today : Date) (dates : Option (List String)) :
    ((dates = none ∨ dates = some []) →
      determine_availability today dates = "unknown") ∧
    (∀ ds, dates = some ds → ds ≠ [] →
      ((formatDDMMYYYY today ∈ ds →
          determine_availability today dates = "available") ∧
        (formatDDMMYYYY today ∉ ds →
          determine_availability today dates = "unavailable"))) := by
  constructor
  · rintro (rfl | rfl)
    · rfl
    · rfl
  · rintro ds rfl hne
    have hemp : ds.isEmpty = false := by
      simpa [List.isEmpty_iff] using hne
    constructor
    · intro hmem
      simp [determine_availability, hemp, hmem]
    · intro hmem
      simp [determine_availability, hemp, hmem]

/-- Witness for C4: on the first of May 2024 a list holding that date gives
available, a list holding only the next day gives unavailable, and `None`
and the empty list give unknown. -/
theorem C4_witness :
    determine_availability ⟨1, 5, 2024⟩ (some ["01/05/2024"]) = "available" ∧
    determine_availability ⟨1, 5, 2024⟩ (some ["02/05/2024"]) = "unavailable" ∧
    determine_availability ⟨1, 5, 2024⟩ none = "unknown" ∧
    determine_availability ⟨1, 5, 2024⟩ (some []) = "unknown" := by
  refine ⟨?_, ?_, ?_, ?_⟩
  · exact ((C4_classifier ⟨1, 5, 2024⟩ (some ["01/05/2024"])).2
      ["01/05/2024"] rfl (by decide)).1 (by decide)
  · exact ((C4_classifier ⟨1, 5, 2024⟩ (some ["02/05/2024"])).2
      ["02/05/2024"] rfl (by decide)).2 (by decide)
  · exact (C4_classifier ⟨1, 5, 2024⟩ none).1 (Or.inl rfl)
  · exact (C4_classifier ⟨1, 5, 2024⟩ (some [])).1 (Or.inr rfl)

/-! ### Claims C5 and C10 -/

/-- A record whose computed context id is `None` is enriched with the
unknown status and null derived fields, and the result does not depend on
the fetch oracle (no fetch is performed). -/
theorem enrichRecord_no_id (f g : String → Option (List String))
    (today : Date) (cg : CampRec) (h : recordContextId cg = none) :
    dictGet (enrichRecord f today cg) "_availability" =
      some (JVal.str "unknown") ∧
    dictGet (enrichRecord f today cg) "_dates" = some JVal.null ∧
    dictGet (enrichRecord f today cg) "_context_id" = some JVal.null ∧
    enrichRecord f today cg = enrichRecord g today cg := by
  have hred : ∀ k : String → Option (List String), enrichRecord k today cg =
      dictSet (dictSet (dictSet cg "_context_id" JVal.null) "_dates" JVal.null)
        "_availability" (JVal.str "unknown") := by
    intro k
    unfold enrichRecord
    rw [h]
    rfl
  refine ⟨?_, ?_, ?_, by rw [hred f, hred g]⟩
  · rw [hred f]
    exact dictGet_dictSet_self _ _ _
  · rw [hred f, dictGet_dictSet_ne _ _ _ _ (by decide)]
    exact dictGet_dictSet_self _ _ _
  · rw [hred f, dictGet_dictSet_ne _ _ _ _ (by decide),
      dictGet_dictSet_ne _ _ _ _ (by decide)]
    exact dictGet_dictSet_self _ _ _

/-- C5: a record from which no identifier is extractable (no id key at all,
a non-string id, or an id from which `extract_context_id` yields `None`) is
enriched with unknown availability, null dates and null context id, and no
fetch is performed: the result is the same for every fetch oracle. -/
theorem C5_no_identifier (f g : String → Option (List String))
    (today : Date) (cg : CampRec) (h : recordContextId cg = none) :
    dictGet (enrichRecord f today cg) "_availability" =
      some (JVal.str "unknown") ∧
    dictGet (enrichRecord f today cg) "_dates" = some JVal.null ∧
    dictGet (enrichRecord f today cg) "_context_id" = some JVal.null ∧
    enrichRecord f today cg = enrichRecord g today cg :=
  enrichRecord_no_id f g today cg h

/-- Witness for C5: a record holding only a title, enriched under two
different oracles, carries the unknown status and null derived fields. -/
theorem C5_witness :
    dictGet (enrichRecord (fun _ => some ["01/05/2024"]) ⟨1, 5, 2024⟩
      [("title", JVal.str "B")]) "_availability" = some (JVal.str "unknown") ∧
    dictGet (enrichRecord (fun _ => some ["01/05/2024"]) ⟨1, 5, 2024⟩
      [("title", JVal.str "B")]) "_dates" = some JVal.null ∧
    dictGet (enrichRecord (fun _ => some ["01/05/2024"]) ⟨1, 5, 2024⟩
      [("title", JVal.str "B")]) "_context_id" = some JVal.null ∧
    enrichRecord (fun _ => some ["01/05/2024"]) ⟨1, 5, 2024⟩
        [("title", JVal.str "B")] =
      enrichRecord (fun _ => none) ⟨1, 5, 2024⟩ [("title", JVal.str "B")] :=
  C5_no_identifier (fun _ => some ["01/05/2024"]) (fun _ => none)
    ⟨1, 5, 2024⟩ [("title", JVal.str "B")] rfl

/-- C10: a record whose id value is present but not a string is handled
without raising (the embedding is a total function, mirroring the
`isinstance` guard of src/main.py line 161): it is treated as having no
identifier, so the context id and dates are null, the status unknown, and
no fetch is performed. -/
theorem C10_nonstring_id (f g : String → Option (List String))
    (today : Date) (cg : CampRec) (v : JVal)
    (h : dictGet cg "id" = some v) (hv : isStrJVal v = false) :
    dictGet (enrichRecord f today cg) "_context_id" = some JVal.null ∧
    dictGet (enrichRecord f today cg) "_dates" = some JVal.null ∧
    dictGet (enrichRecord f today cg) "_availability" =
      some (JVal.str "unknown") ∧
    enrichRecord f today cg = enrichRecord g today cg := by
  have hctx : recordContextId cg = none := by
    unfold recordContextId
    rw [h]
    cases v with
    | str s => simp [isStrJVal] at hv
    | null => rfl
    | boolean b => rfl
    | num n => rfl
    | arr xs => rfl
    | obj kvs => rfl
  obtain ⟨h1, h2, h3, h4⟩ := enrichRecord_no_id f g today cg hctx
  exact ⟨h3, h2, h1, h4⟩

/-- Witness for C10: a record whose id is the number seven is enriched with
null context id and dates and unknown status under two different oracles. -/
theorem C10_witness :
    dictGet (enrichRecord (fun _ => some ["01/05/2024"]) ⟨1, 5, 2024⟩
      [("id", JVal.num 7)]) "_context_id" = some JVal.null ∧
    dictGet (enrichRecord (fun _ => some ["01/05/2024"]) ⟨1, 5, 2024⟩
      [("id", JVal.num 7)]) "_dates" = some JVal.null ∧
    dictGet (enrichRecord (fun _ => some ["01/05/2024"]) ⟨1, 5, 2024⟩
      [("id", JVal.num 7)]) "_availability" = some (JVal.str "unknown") ∧
    enrichRecord (fun _ => some ["01/05/2024"]) ⟨1, 5, 2024⟩
        [("id", JVal.num 7)] =
      enrichRecord (fun _ => none) ⟨1, 5, 2024⟩ [("id", JVal.num 7)] :=
  C10_nonstring_id (fun _ => some ["01/05/2024"]) (fun _ => none)
    ⟨1, 5, 2024⟩ [("id", JVal.num 7)] (JVal.num 7) rfl rfl

/-! ### Claim C7 -/

/-- C7: the enrichment produces one record per input record in input order
(same length, and the record at every index is the enrichment of the input
record at that index), and each enriched record agrees with its original on
every key other than the three derived fields. -/
theorem C7_frame (f : String → Option (List String)) (today : Date)
    (cgs : List CampRec) :
    (enrich f today cgs).length = cgs.length ∧
    (∀ i (h1 : i < (enrich f today cgs).length) (h2 : i < cgs.length),
      (enrich f today cgs).get ⟨i, h1⟩ =
        enrichRecord f today (cgs.get ⟨i, h2⟩)) ∧
    (∀ (cg : CampRec) (k : String), k ≠ "_context_id" → k ≠ "_dates" →
      k ≠ "_availability" →
      dictGet (enrichRecord f today cg) k = dictGet cg k) := by
  refine ⟨by simp [enrich], ?_, ?_⟩
  · intro i h1 h2
    simp [enrich]
  · intro cg k hk1 hk2 hk3
    simp only [enrichRecord]
    rw [dictGet_dictSet_ne _ _ _ _ hk3, dictGet_dictSet_ne _ _ _ _ hk2,
      dictGet_dictSet_ne _ _ _ _ hk1]

/-- Witness for C7: a one-record list keeps its length, its only enriched
entry is the enrichment of its only record, and the title key survives
untouched. -/
theorem C7_witness :
    (enrich (fun _ => none) ⟨1, 5, 2024⟩ [[("title", JVal.str "A")]]).length =
      ([[("title", JVal.str "A")]] : List CampRec).length ∧
    (enrich (fun _ => none) ⟨1, 5, 2024⟩ [[("title", JVal.str "A")]]).get
        ⟨0, by decide⟩ =
      enrichRecord (fun _ => none) ⟨1, 5, 2024⟩ [("title", JVal.str "A")] ∧
    dictGet (enrichRecord (fun _ => none) ⟨1, 5, 2024⟩
      [("title", JVal.str "A")]) "title" = some (JVal.str "A") := by
  refine ⟨(C7_frame (fun _ => none) ⟨1, 5, 2024⟩ [[("title", JVal.str "A")]]).1,
    (C7_frame (fun _ => none) ⟨1, 5, 2024⟩ [[("title", JVal.str "A")]]).2.1
      0 (by decide) (by decide), ?_⟩
  have hk := (C7_frame (fun _ => none) ⟨1, 5, 2024⟩ []).2.2
    [("title", JVal.str "A")] "title" (by decide) (by decide) (by decide)
  rw [hk]
  rfl

/-! ### Claim C9 -/

theorem dictGet_enrichRecord_other (f : String → Option (List String))
    (today : Date) (cg : CampRec) (k : String) (h1 : k ≠ "_context_id")
    (h2 : k ≠ "_dates") (h3 : k ≠ "_availability") :
    dictGet (enrichRecord f today cg) k = dictGet cg k := by
  simp only [enrichRecord]
  rw [dictGet_dictSet_ne _ _ _ _ h3, dictGet_dictSet_ne _ _ _ _ h2,
    dictGet_dictSet_ne _ _ _ _ h1]

/-- The render step only reads the coords and title keys, which the
enrichment leaves untouched, so it gives the same verdict on a record and
on its enrichment. -/
theorem renderRecordOk_enrich (f : String → Option (List String))
    (today : Date) (cg : CampRec) :
    renderRecordOk (enrichRecord f today cg) = renderRecordOk cg := by
  unfold renderRecordOk titleOk
  rw [dictGet_enrichRecord_other f today cg "coords" (by decide) (by decide)
      (by decide),
    dictGet_enrichRecord_other f today cg "title" (by decide) (by decide)
      (by decide)]

theorem all_renderRecordOk_enrich (f : String → Option (List String))
    (today : Date) (recs : List CampRec) :
    (enrich f today recs).all renderRecordOk = recs.all renderRecordOk := by
  unfold enrich
  induction recs with
  | nil => rfl
  | cons cg rest ih => simp [List.all_cons, renderRecordOk_enrich, ih]

